import Mathlib

/-
Verification of the KPI core of weekly_kpi_reporter (transform.py):
period resolution (compute_date_range) and KPI aggregation (compute_kpis).

Modelling choices:
  - A pandas Timestamp is an integer count of minutes since an epoch
    (`Timestamp := Int`); `.normalize()` truncates to midnight, i.e. floors
    to a multiple of 1440 minutes.
  - A pandas DataFrame of users / payments is a list of records.
  - Monetary amounts are rationals (ℚ): the claims under study concern
    zero/empty and branching behaviour, never float rounding.
  - `Series.nunique` is the number of distinct values in a list,
    `List.dedup.length`.
  - `compute_date_range` returns `Except String` to model `raise ValueError`.
-/

namespace WeeklyKPI

/-- Minutes in one calendar day. -/
def minutesPerDay : Int := 1440

/-- Truncate a timestamp to midnight of its calendar day: models pandas
`.normalize()` / `.dt.normalize()` (floor to a multiple of a day, also for
negative, i.e. pre-epoch, times). -/
def Timestamp.normalize (t : Int) : Int :=
  t - t % minutesPerDay

/-- A row of the users table: `user_id,registered_at,source` (loader.py). -/
structure UserRecord where
  user_id : Nat
  registered_at : Int
  source : String
deriving DecidableEq, Repr

/-- A row of the payments table:
`payment_id,user_id,amount,currency,paid_at` (loader.py). -/
structure PaymentRecord where
  payment_id : Nat
  user_id : Nat
  amount : ℚ
  currency : String
  paid_at : Int
deriving DecidableEq, Repr

/-- The summary dataclass `SummaryKPI` of transform.py. -/
structure SummaryKPI where
  start_date : Int
  end_date : Int
  total_new_users : Nat
  total_paying_users : Nat
  total_revenue : ℚ
  conversion : ℚ
  avg_check : Option ℚ
deriving DecidableEq, Repr

/-- One row of the `daily_df` DataFrame built by `compute_kpis`. -/
structure DailyRow where
  date : Int
  new_users : Nat
  paying_users : Nat
  payments_count : Nat
  revenue : ℚ
  conversion : ℚ
  avg_check : ℚ
deriving DecidableEq, Repr

/-- Number of distinct values in a list: pandas `Series.nunique`. -/
def nunique (l : List Nat) : Nat := l.dedup.length

/-- Maximum of a list of timestamps, pandas `Series.max`; every use site
guards against the empty list, for which `0` is returned. -/
def seriesMax : List Int → Int
  | [] => 0
  | x :: xs => xs.foldl max x

/-- The error message of `compute_date_range` when no data is available. -/
def noDataMsg : String := "Невозможно определить диапазон дат: нет данных."

/-- transform.py `compute_date_range`: if both explicit bounds are given,
return them normalized; otherwise anchor a trailing `window_days`-day window
at the latest observed timestamp, raising when both inputs are empty. -/
def compute_date_range (users : List UserRecord) (payments : List PaymentRecord)
    (start_date end_date : Option Int) (window_days : Int) :
    Except String (Int × Int) :=
  match start_date, end_date with
  | some s, some e => .ok (Timestamp.normalize s, Timestamp.normalize e)
  | _, _ =>
    let all_dates : List Int :=
      (if users.isEmpty then []
       else [seriesMax (users.map (fun u => u.registered_at))]) ++
      (if payments.isEmpty then []
       else [seriesMax (payments.map (fun p => p.paid_at))])
    if all_dates.isEmpty then
      .error noDataMsg
    else
      let last_date := Timestamp.normalize (seriesMax all_dates)
      let first_date := last_date - minutesPerDay * (window_days - 1)
      .ok (first_date, last_date)

/-- transform.py lines 72–74: the users whose raw `registered_at` lies in
`[start_date, end_date]` (full-timestamp comparison, bounds as given). -/
def users_period (users : List UserRecord) (start_date end_date : Int) :
    List UserRecord :=
  users.filter (fun u =>
    decide (start_date ≤ u.registered_at ∧ u.registered_at ≤ end_date))

/-- transform.py lines 75–77: the payments whose raw `paid_at` lies in
`[start_date, end_date]`. -/
def payments_period (payments : List PaymentRecord)
    (start_date end_date : Int) : List PaymentRecord :=
  payments.filter (fun p =>
    decide (start_date ≤ p.paid_at ∧ p.paid_at ≤ end_date))

/-- `pd.date_range(start_date, end_date, freq="D")`: the daily timestamps
`start_date, start_date + 1 day, …` not exceeding `end_date`; empty when
`start_date > end_date`. -/
def date_range (start_date end_date : Int) : List Int :=
  if start_date ≤ end_date then
    (List.range (((end_date - start_date) / minutesPerDay).toNat + 1)).map
      (fun (k : ℕ) => start_date + minutesPerDay * (k : Int))
  else []

/-- `new_users_by_day` at day `d`: distinct `user_id` count among period users
whose normalized `registered_at` equals `d` (`groupby("date").nunique`,
reindexed with fill value 0). -/
def new_users_on (ups : List UserRecord) (d : Int) : Nat :=
  nunique ((ups.filter (fun u => decide (Timestamp.normalize u.registered_at = d))).map
    (fun u => u.user_id))

/-- `paying_users_by_day` at day `d`: distinct `user_id` count among period
payments whose normalized `paid_at` equals `d`. -/
def paying_users_on (pps : List PaymentRecord) (d : Int) : Nat :=
  nunique ((pps.filter (fun p => decide (Timestamp.normalize p.paid_at = d))).map
    (fun p => p.user_id))

/-- `payments_count_by_day` at day `d`: distinct `payment_id` count among
period payments whose normalized `paid_at` equals `d`. -/
def payments_count_on (pps : List PaymentRecord) (d : Int) : Nat :=
  nunique ((pps.filter (fun p => decide (Timestamp.normalize p.paid_at = d))).map
    (fun p => p.payment_id))

/-- The amounts of the period payments dated (after normalization) `d`. -/
def day_amounts (pps : List PaymentRecord) (d : Int) : List ℚ :=
  (pps.filter (fun p => decide (Timestamp.normalize p.paid_at = d))).map
    (fun p => p.amount)

/-- `revenue_by_day` at day `d`: the sum of that day's amounts (0 if none). -/
def revenue_on (pps : List PaymentRecord) (d : Int) : ℚ :=
  (day_amounts pps d).sum

/-- `conversion_by_day` at day `d`: paying / new when the day has new users,
else `0.0` (transform.py lines 107–114). -/
def conversion_on (ups : List UserRecord) (pps : List PaymentRecord)
    (d : Int) : ℚ :=
  if 0 < new_users_on ups d then
    (paying_users_on pps d : ℚ) / (new_users_on ups d : ℚ)
  else 0

/-- `avg_check_by_day` at day `d`: mean of that day's amounts, `0.0` when the
day has no payments (transform.py lines 119–128). -/
def avg_check_on (pps : List PaymentRecord) (d : Int) : ℚ :=
  if (day_amounts pps d).isEmpty then 0
  else (day_amounts pps d).sum / ((day_amounts pps d).length : ℚ)

/-- The `daily_df` row for day `d` (transform.py lines 130–140). -/
def dailyRowOn (ups : List UserRecord) (pps : List PaymentRecord)
    (d : Int) : DailyRow :=
  { date := d
    new_users := new_users_on ups d
    paying_users := paying_users_on pps d
    payments_count := payments_count_on pps d
    revenue := revenue_on pps d
    conversion := conversion_on ups pps d
    avg_check := avg_check_on pps d }

/-- transform.py `compute_kpis`: filter both tables to the period, build one
daily row per day of `date_range`, and aggregate the period totals. -/
def compute_kpis (users : List UserRecord) (payments : List PaymentRecord)
    (start_date end_date : Int) : List DailyRow × SummaryKPI :=
  let ups := users_period users start_date end_date
  let pps := payments_period payments start_date end_date
  let all_dates := date_range start_date end_date
  let daily_df := all_dates.map (fun d => dailyRowOn ups pps d)
  let total_new_users := (all_dates.map (fun d => new_users_on ups d)).sum
  let total_paying_users := nunique (pps.map (fun p => p.user_id))
  let total_revenue := (all_dates.map (fun d => revenue_on pps d)).sum
  let avg_check_overall : Option ℚ :=
    if pps.isEmpty then none
    else some ((pps.map (fun p => p.amount)).sum / (pps.length : ℚ))
  let conversion_overall : ℚ :=
    if 0 < total_new_users then
      (total_paying_users : ℚ) / (total_new_users : ℚ)
    else 0
  (daily_df,
   { start_date := start_date
     end_date := end_date
     total_new_users := total_new_users
     total_paying_users := total_paying_users
     total_revenue := total_revenue
     conversion := conversion_overall
     avg_check := avg_check_overall })

/-- The daily table produced by `compute_kpis`. -/
def dailyRows (users : List UserRecord) (payments : List PaymentRecord)
    (start_date end_date : Int) : List DailyRow :=
  (compute_kpis users payments start_date end_date).1

/-- The summary produced by `compute_kpis`. -/
def summaryOf (users : List UserRecord) (payments : List PaymentRecord)
    (start_date end_date : Int) : SummaryKPI :=
  (compute_kpis users payments start_date end_date).2

/-! ## Helper lemmas -/

/-- Normalizing can only move a timestamp backwards in time. -/
theorem normalize_le (t : Int) : Timestamp.normalize t ≤ t := by
  unfold Timestamp.normalize minutesPerDay
  omega

/-- A timestamp is at or after the midnight of its own calendar day. -/
theorem le_of_normalize_eq (t e : Int) (h : Timestamp.normalize t = e) : e ≤ t := by
  unfold Timestamp.normalize minutesPerDay at h
  omega

/-- The daily table is the day sequence mapped through the row builder. -/
theorem dailyRows_def (u : List UserRecord) (p : List PaymentRecord)
    (s e : Int) :
    dailyRows u p s e =
      (date_range s e).map
        (fun d => dailyRowOn (users_period u s e) (payments_period p s e) d) :=
  rfl

/-- The summary's new-user total is the sum of the per-day distinct counts. -/
theorem summary_total_new_users_def (u : List UserRecord)
    (p : List PaymentRecord) (s e : Int) :
    (summaryOf u p s e).total_new_users =
      ((date_range s e).map
        (fun d => new_users_on (users_period u s e) d)).sum :=
  rfl

/-- The summary's paying-user total is a distinct count over the whole
filtered payment set. -/
theorem summary_total_paying_users_def (u : List UserRecord)
    (p : List PaymentRecord) (s e : Int) :
    (summaryOf u p s e).total_paying_users =
      nunique ((payments_period p s e).map (fun q => q.user_id)) :=
  rfl

/-- The summary's revenue total is the sum of the per-day revenues. -/
theorem summary_total_revenue_def (u : List UserRecord)
    (p : List PaymentRecord) (s e : Int) :
    (summaryOf u p s e).total_revenue =
      ((date_range s e).map
        (fun d => revenue_on (payments_period p s e) d)).sum :=
  rfl

/-- The summary's average check is the mean over the filtered payments,
absent when there are none. -/
theorem summary_avg_check_def (u : List UserRecord)
    (p : List PaymentRecord) (s e : Int) :
    (summaryOf u p s e).avg_check =
      (if (payments_period p s e).isEmpty then none
       else some (((payments_period p s e).map (fun q => q.amount)).sum /
         ((payments_period p s e).length : ℚ))) :=
  rfl

/-- The summary's conversion is guarded by a positivity test on the
new-user total. -/
theorem summary_conversion_def (u : List UserRecord)
    (p : List PaymentRecord) (s e : Int) :
    (summaryOf u p s e).conversion =
      (if 0 < (summaryOf u p s e).total_new_users then
        ((summaryOf u p s e).total_paying_users : ℚ) /
          ((summaryOf u p s e).total_new_users : ℚ)
      else 0) :=
  rfl

/-- The day sequence written out, for a non-inverted period. -/
theorem date_range_eq (s e : Int) (hle : s ≤ e) :
    date_range s e =
      (List.range (((e - s) / minutesPerDay).toNat + 1)).map
        (fun (k : ℕ) => s + minutesPerDay * (k : Int)) := by
  unfold date_range
  exact if_pos hle

/-- A day with no new users has conversion `0.0`. -/
theorem conversion_on_zero (ups : List UserRecord) (pps : List PaymentRecord)
    (d : Int) (h : new_users_on ups d = 0) : conversion_on ups pps d = 0 := by
  rw [conversion_on, if_neg]
  omega

/-- A day with new users has conversion paying / new. -/
theorem conversion_on_pos (ups : List UserRecord) (pps : List PaymentRecord)
    (d : Int) (h : 0 < new_users_on ups d) :
    conversion_on ups pps d =
      (paying_users_on pps d : ℚ) / (new_users_on ups d : ℚ) := by
  rw [conversion_on, if_pos h]

/-! ## Claims -/

/-- C1, counterexample: the claim says a user registered at `end` 23:59 (here
minute 1439 of day 0, whose calendar date is the period end, day 0) is
included by the period filter of `compute_kpis`, and likewise for a payment
paid then.  The code compares the raw timestamps against the
midnight-normalized bounds, so both records are excluded. -/
theorem C1_counterexample :
    Timestamp.normalize 1439 = (0 : Int) ∧
    (⟨1, 1439, "ads"⟩ : UserRecord) ∉ users_period [⟨1, 1439, "ads"⟩] 0 0 ∧
    (⟨7, 1, 100, "USD", 1439⟩ : PaymentRecord) ∉
      payments_period [⟨7, 1, 100, "USD", 1439⟩] 0 0 := by
  refine ⟨by decide, ?_, ?_⟩ <;> decide

/-- C1, amended: the period filters of `compute_kpis` compare the RAW
`registered_at` / `paid_at` timestamps against the bounds.  A record whose
timestamp falls on the calendar date of `end_date` is included iff the
timestamp is exactly `end_date` itself (midnight); any later time of day on
the end date is excluded. -/
theorem C1_amended_raw_timestamp_filter (users : List UserRecord)
    (payments : List PaymentRecord) (s e : Int) (u : UserRecord)
    (q : PaymentRecord) (hu : Timestamp.normalize u.registered_at = e)
    (hq : Timestamp.normalize q.paid_at = e) :
    (u ∈ users_period users s e ↔
      u ∈ users ∧ s ≤ u.registered_at ∧ u.registered_at = e) ∧
    (q ∈ payments_period payments s e ↔
      q ∈ payments ∧ s ≤ q.paid_at ∧ q.paid_at = e) := by
  have h1 : e ≤ u.registered_at := le_of_normalize_eq _ _ hu
  have h2 : e ≤ q.paid_at := le_of_normalize_eq _ _ hq
  constructor
  · simp only [users_period, List.mem_filter, decide_eq_true_eq]
    constructor
    · rintro ⟨hm, hs, ht⟩
      exact ⟨hm, hs, by omega⟩
    · rintro ⟨hm, hs, ht⟩
      exact ⟨hm, hs, by omega⟩
  · simp only [payments_period, List.mem_filter, decide_eq_true_eq]
    constructor
    · rintro ⟨hm, hs, ht⟩
      exact ⟨hm, hs, by omega⟩
    · rintro ⟨hm, hs, ht⟩
      exact ⟨hm, hs, by omega⟩

/-- Witness for the amended C1 at a concrete input: end is day 0 midnight,
user and payment timestamps are exactly midnight of that day, and the
characterization holds there. -/
theorem C1_amended_witness :
    Timestamp.normalize 0 = (0 : Int) ∧
    (((⟨1, 0, "a"⟩ : UserRecord) ∈ users_period [⟨1, 0, "a"⟩] 0 0 ↔
        (⟨1, 0, "a"⟩ : UserRecord) ∈ ([⟨1, 0, "a"⟩] : List UserRecord) ∧
          (0 : Int) ≤ 0 ∧ (0 : Int) = 0) ∧
      ((⟨2, 1, 5, "USD", 0⟩ : PaymentRecord) ∈
          payments_period [⟨2, 1, 5, "USD", 0⟩] 0 0 ↔
        (⟨2, 1, 5, "USD", 0⟩ : PaymentRecord) ∈
            ([⟨2, 1, 5, "USD", 0⟩] : List PaymentRecord) ∧
          (0 : Int) ≤ 0 ∧ (0 : Int) = 0)) :=
  ⟨by decide,
   C1_amended_raw_timestamp_filter [⟨1, 0, "a"⟩] [⟨2, 1, 5, "USD", 0⟩] 0 0
     ⟨1, 0, "a"⟩ ⟨2, 1, 5, "USD", 0⟩ (by decide) (by decide)⟩

/-- C8: period resolution errors iff both inputs are empty and no full
explicit period was given; with both explicit bounds it returns exactly the
two normalized dates, for every input (also empty ones) and without any
start ≤ end validation. -/
theorem C8_error_iff_no_data (u : List UserRecord) (p : List PaymentRecord)
    (ss se : Option Int) (wd : Int) :
    ((∃ msg, compute_date_range u p ss se wd = .error msg) ↔
      (u = [] ∧ p = [] ∧ (ss = none ∨ se = none))) ∧
    (∀ s e : Int,
      compute_date_range u p (some s) (some e) wd =
        .ok (Timestamp.normalize s, Timestamp.normalize e)) := by
  constructor
  · match ss, se with
    | some s, some e => simp [compute_date_range]
    | some s, none => cases u <;> cases p <;> simp [compute_date_range]
    | none, some e => cases u <;> cases p <;> simp [compute_date_range]
    | none, none => cases u <;> cases p <;> simp [compute_date_range]
  · intro s e
    rfl

/-- C9: giving exactly one explicit bound is treated as giving none — the
provided bound is ignored and the anchor-based fallback runs. -/
theorem C9_partial_explicit_ignored (u : List UserRecord)
    (p : List PaymentRecord) (s e : Int) (wd : Int) :
    compute_date_range u p (some s) none wd =
      compute_date_range u p none none wd ∧
    compute_date_range u p none (some e) wd =
      compute_date_range u p none none wd :=
  ⟨rfl, rfl⟩

/-- C10: an inverted period (start after end, both normalized) does not
raise: the daily table is empty and the summary is all zeros with an absent
average check. -/
theorem C10_inverted_period (u : List UserRecord) (p : List PaymentRecord)
    (s e : Int) (hs : Timestamp.normalize s = s) (he : Timestamp.normalize e = e)
    (hlt : e < s) :
    dailyRows u p s e = [] ∧
    (summaryOf u p s e).total_new_users = 0 ∧
    (summaryOf u p s e).total_paying_users = 0 ∧
    (summaryOf u p s e).total_revenue = 0 ∧
    (summaryOf u p s e).conversion = 0 ∧
    (summaryOf u p s e).avg_check = none := by
  have hdr : date_range s e = [] := by
    unfold date_range
    rw [if_neg]
    omega
  have hpp : payments_period p s e = [] := by
    refine List.filter_eq_nil_iff.mpr ?_
    intro a _
    simp only [decide_eq_true_eq, not_and, not_le]
    intro hsa
    omega
  refine ⟨?_, ?_, ?_, ?_, ?_, ?_⟩
  · rw [dailyRows_def, hdr]
    rfl
  · rw [summary_total_new_users_def, hdr]
    rfl
  · rw [summary_total_paying_users_def, hpp]
    rfl
  · rw [summary_total_revenue_def, hdr]
    rfl
  · rw [summary_conversion_def, summary_total_new_users_def, hdr]
    rfl
  · rw [summary_avg_check_def, hpp]
    rfl

/-- Witness for C10 at a concrete input: start is day 1 midnight, end is day
0 midnight, with one user and one payment present. -/
theorem C10_witness :
    Timestamp.normalize 1440 = (1440 : Int) ∧
    Timestamp.normalize 0 = (0 : Int) ∧
    (0 : Int) < 1440 ∧
    (dailyRows [⟨1, 0, "a"⟩] [⟨1, 1, 5, "USD", 0⟩] 1440 0 = [] ∧
      (summaryOf [⟨1, 0, "a"⟩] [⟨1, 1, 5, "USD", 0⟩] 1440 0).total_new_users = 0 ∧
      (summaryOf [⟨1, 0, "a"⟩] [⟨1, 1, 5, "USD", 0⟩] 1440 0).total_paying_users = 0 ∧
      (summaryOf [⟨1, 0, "a"⟩] [⟨1, 1, 5, "USD", 0⟩] 1440 0).total_revenue = 0 ∧
      (summaryOf [⟨1, 0, "a"⟩] [⟨1, 1, 5, "USD", 0⟩] 1440 0).conversion = 0 ∧
      (summaryOf [⟨1, 0, "a"⟩] [⟨1, 1, 5, "USD", 0⟩] 1440 0).avg_check = none) :=
  ⟨by decide, by decide, by decide,
   C10_inverted_period [⟨1, 0, "a"⟩] [⟨1, 1, 5, "USD", 0⟩] 1440 0
     (by decide) (by decide) (by decide)⟩

/-- C2: for a normalized, non-inverted period the daily table has exactly
`(end − start).days + 1` rows, row `i` carrying calendar day `start + i`,
so the dates are contiguous, strictly ascending, duplicate-free, and run
from `start` to `end`; the row set is defined by the day sequence alone,
and a zero-activity day (no period user registered and no period payment
paid on that date) appears as a zero-valued row: new_users, paying_users,
payments_count, revenue, conversion and avg_check all zero. -/
theorem C2_contiguous_daily_rows (u : List UserRecord) (p : List PaymentRecord)
    (s e : Int) (hs : Timestamp.normalize s = s)
    (he : Timestamp.normalize e = e) (hle : s ≤ e) :
    (dailyRows u p s e).length = ((e - s) / minutesPerDay).toNat + 1 ∧
    (∀ i (hi : i < (dailyRows u p s e).length),
      ((dailyRows u p s e).get ⟨i, hi⟩).date = s + minutesPerDay * (i : Int)) ∧
    ((dailyRows u p s e).map DailyRow.date).head? = some s ∧
    ((dailyRows u p s e).map DailyRow.date).getLast? = some e ∧
    (∀ r ∈ dailyRows u p s e,
      ((∀ x ∈ users_period u s e,
          Timestamp.normalize x.registered_at ≠ r.date) →
        r.new_users = 0 ∧ r.conversion = 0) ∧
      ((∀ q ∈ payments_period p s e,
          Timestamp.normalize q.paid_at ≠ r.date) →
        r.paying_users = 0 ∧ r.payments_count = 0 ∧ r.revenue = 0 ∧
          r.avg_check = 0)) := by
  have hrows : dailyRows u p s e =
      (List.range (((e - s) / minutesPerDay).toNat + 1)).map
        (fun (k : ℕ) => dailyRowOn (users_period u s e) (payments_period p s e)
          (s + minutesPerDay * (k : Int))) := by
    rw [dailyRows_def, date_range_eq s e hle, List.map_map]
    rfl
  refine ⟨?_, ?_, ?_, ?_, ?_⟩
  · rw [hrows]
    simp
  · intro i hi
    revert hi
    rw [hrows]
    intro hi
    simp only [List.get_eq_getElem, List.getElem_map, List.getElem_range]
    rfl
  · rw [hrows, List.map_map, List.range_succ_eq_map]
    simp [dailyRowOn]
  · rw [hrows, List.map_map, List.getLast?_eq_getElem?]
    simp only [List.length_map, List.length_range, Nat.add_sub_cancel]
    rw [List.getElem?_map, List.getElem?_range (by omega)]
    have harith : s + minutesPerDay *
        ((((e - s) / minutesPerDay).toNat : Nat) : Int) = e := by
      unfold Timestamp.normalize minutesPerDay at hs he
      unfold minutesPerDay
      omega
    simp only [Option.map_some', Function.comp_apply, dailyRowOn]
    rw [harith]
  · intro r hr
    rw [dailyRows_def] at hr
    obtain ⟨d, _, rfl⟩ := List.mem_map.mp hr
    constructor
    · intro hnou
      have hfu : (users_period u s e).filter
          (fun x => decide (Timestamp.normalize x.registered_at = d)) = [] := by
        refine List.filter_eq_nil_iff.mpr ?_
        intro x hx
        simp only [decide_eq_true_eq]
        exact hnou x hx
      have hz : new_users_on (users_period u s e) d = 0 := by
        rw [new_users_on, hfu]
        rfl
      exact ⟨hz, conversion_on_zero _ _ _ hz⟩
    · intro hnop
      have hfp : (payments_period p s e).filter
          (fun q => decide (Timestamp.normalize q.paid_at = d)) = [] := by
        refine List.filter_eq_nil_iff.mpr ?_
        intro q hq
        simp only [decide_eq_true_eq]
        exact hnop q hq
      refine ⟨?_, ?_, ?_, ?_⟩
      · show paying_users_on (payments_period p s e) d = 0
        rw [paying_users_on, hfp]
        rfl
      · show payments_count_on (payments_period p s e) d = 0
        rw [payments_count_on, hfp]
        rfl
      · show revenue_on (payments_period p s e) d = 0
        rw [revenue_on, day_amounts, hfp]
        rfl
      · show avg_check_on (payments_period p s e) d = 0
        rw [avg_check_on, day_amounts, hfp]
        rfl

/-- Witness for C2 at a concrete input: the two-day period of days 0 and 1
with empty inputs, whose first row is a zero-activity zero-valued row. -/
theorem C2_witness :
    Timestamp.normalize 0 = (0 : Int) ∧
    Timestamp.normalize 1440 = (1440 : Int) ∧
    (0 : Int) ≤ 1440 ∧
    (dailyRows [] [] 0 1440).length =
      (((1440 : Int) - 0) / minutesPerDay).toNat + 1 ∧
    ((dailyRows [] [] 0 1440).map DailyRow.date).head? = some 0 ∧
    ((dailyRows [] [] 0 1440).map DailyRow.date).getLast? = some 1440 ∧
    (((dailyRows [] [] 0 1440).get ⟨0, by decide⟩).new_users = 0 ∧
      ((dailyRows [] [] 0 1440).get ⟨0, by decide⟩).conversion = 0) ∧
    (((dailyRows [] [] 0 1440).get ⟨0, by decide⟩).paying_users = 0 ∧
      ((dailyRows [] [] 0 1440).get ⟨0, by decide⟩).payments_count = 0 ∧
      ((dailyRows [] [] 0 1440).get ⟨0, by decide⟩).revenue = 0 ∧
      ((dailyRows [] [] 0 1440).get ⟨0, by decide⟩).avg_check = 0) :=
  ⟨by decide, by decide, by decide,
   (C2_contiguous_daily_rows [] [] 0 1440 (by decide) (by decide) (by decide)).1,
   (C2_contiguous_daily_rows [] [] 0 1440 (by decide) (by decide) (by decide)).2.2.1,
   (C2_contiguous_daily_rows [] [] 0 1440
     (by decide) (by decide) (by decide)).2.2.2.1,
   ((C2_contiguous_daily_rows [] [] 0 1440
     (by decide) (by decide) (by decide)).2.2.2.2
       _ (List.get_mem _ _ _)).1 (by decide),
   ((C2_contiguous_daily_rows [] [] 0 1440
     (by decide) (by decide) (by decide)).2.2.2.2
       _ (List.get_mem _ _ _)).2 (by decide)⟩

/-- C3: the period total of paying users is one distinct count over the
whole filtered payment set, while each daily row's paying users is the
distinct count among that day's payments alone — a user paying on several
days is counted once in the total but once per day in the rows. -/
theorem C3_total_paying_users_distinct (u : List UserRecord)
    (p : List PaymentRecord) (s e : Int) :
    (summaryOf u p s e).total_paying_users =
      ((payments_period p s e).map (fun q => q.user_id)).toFinset.card ∧
    ∀ r ∈ dailyRows u p s e,
      r.paying_users =
        (((payments_period p s e).filter (fun q =>
            decide (Timestamp.normalize q.paid_at = r.date))).map
          (fun q => q.user_id)).toFinset.card := by
  constructor
  · rw [summary_total_paying_users_def]
    unfold nunique
    exact (List.card_toFinset _).symm
  · intro r hr
    rw [dailyRows_def] at hr
    obtain ⟨d, _, rfl⟩ := List.mem_map.mp hr
    show paying_users_on (payments_period p s e) d = _
    rw [paying_users_on]
    unfold nunique
    exact (List.card_toFinset _).symm

/-- Witness for C3 at a concrete input: one user pays on both days of a
two-day period; the total counts it once, each daily row counts it once. -/
theorem C3_witness :
    (summaryOf [] [⟨1, 9, 10, "USD", 0⟩, ⟨2, 9, 20, "USD", 1440⟩] 0 1440).total_paying_users
      = ((payments_period [⟨1, 9, 10, "USD", 0⟩, ⟨2, 9, 20, "USD", 1440⟩] 0 1440).map
          (fun q => q.user_id)).toFinset.card ∧
    ((dailyRows [] [⟨1, 9, 10, "USD", 0⟩, ⟨2, 9, 20, "USD", 1440⟩] 0 1440).get
        ⟨0, by decide⟩).paying_users
      = (((payments_period [⟨1, 9, 10, "USD", 0⟩, ⟨2, 9, 20, "USD", 1440⟩] 0 1440).filter
          (fun q => decide (Timestamp.normalize q.paid_at =
            ((dailyRows [] [⟨1, 9, 10, "USD", 0⟩, ⟨2, 9, 20, "USD", 1440⟩] 0 1440).get
              ⟨0, by decide⟩).date))).map
          (fun q => q.user_id)).toFinset.card :=
  ⟨(C3_total_paying_users_distinct [] [⟨1, 9, 10, "USD", 0⟩, ⟨2, 9, 20, "USD", 1440⟩] 0 1440).1,
   (C3_total_paying_users_distinct [] [⟨1, 9, 10, "USD", 0⟩, ⟨2, 9, 20, "USD", 1440⟩] 0 1440).2
     _ (List.get_mem _ _ _)⟩

/-- C4: the sum of the daily new-user counts equals the summary's
total_new_users exactly, for every input and period — the total is by
construction the sum of the per-day distinct counts, not a period-wide
distinct count. -/
theorem C4_total_new_users_is_daily_sum (u : List UserRecord)
    (p : List PaymentRecord) (s e : Int) :
    ((dailyRows u p s e).map DailyRow.new_users).sum =
      (summaryOf u p s e).total_new_users ∧
    (summaryOf u p s e).total_new_users =
      ((date_range s e).map
        (fun d => new_users_on (users_period u s e) d)).sum := by
  refine ⟨?_, rfl⟩
  rw [summary_total_new_users_def, dailyRows_def, List.map_map]
  rfl

/-- C5: with zero payments inside the period the summary's average check is
absent (`none`) while every daily row's average check is `0.0`. -/
theorem C5_avg_check_null_vs_zero (u : List UserRecord)
    (p : List PaymentRecord) (s e : Int)
    (h : payments_period p s e = []) :
    (summaryOf u p s e).avg_check = none ∧
    ∀ r ∈ dailyRows u p s e, r.avg_check = 0 := by
  constructor
  · rw [summary_avg_check_def, h]
    rfl
  · intro r hr
    rw [dailyRows_def] at hr
    obtain ⟨d, _, rfl⟩ := List.mem_map.mp hr
    show avg_check_on (payments_period p s e) d = 0
    rw [h]
    rfl

/-- Witness for C5 at a concrete input: the only payment lies outside the
two-day period, so the period has zero payments. -/
theorem C5_witness :
    payments_period [⟨1, 1, 5, "USD", 99999⟩] 0 1440 = [] ∧
    (summaryOf [] [⟨1, 1, 5, "USD", 99999⟩] 0 1440).avg_check = none ∧
    ((dailyRows [] [⟨1, 1, 5, "USD", 99999⟩] 0 1440).get
      ⟨0, by decide⟩).avg_check = 0 :=
  ⟨by decide,
   (C5_avg_check_null_vs_zero [] [⟨1, 1, 5, "USD", 99999⟩] 0 1440 (by decide)).1,
   (C5_avg_check_null_vs_zero [] [⟨1, 1, 5, "USD", 99999⟩] 0 1440 (by decide)).2
     _ (List.get_mem _ _ _)⟩

/-- C6: conversion never divides by zero — each daily row's conversion is
`0.0` when the day has no new users and paying / new otherwise, and the
period conversion is `0.0` when total_new_users is zero and
total_paying_users / total_new_users otherwise. -/
theorem C6_conversion_no_div_by_zero (u : List UserRecord)
    (p : List PaymentRecord) (s e : Int) :
    (∀ r ∈ dailyRows u p s e,
      (r.new_users = 0 → r.conversion = 0) ∧
      (0 < r.new_users →
        r.conversion = (r.paying_users : ℚ) / (r.new_users : ℚ))) ∧
    ((summaryOf u p s e).total_new_users = 0 →
      (summaryOf u p s e).conversion = 0) ∧
    (0 < (summaryOf u p s e).total_new_users →
      (summaryOf u p s e).conversion =
        ((summaryOf u p s e).total_paying_users : ℚ) /
          ((summaryOf u p s e).total_new_users : ℚ)) := by
  refine ⟨?_, ?_, ?_⟩
  · intro r hr
    rw [dailyRows_def] at hr
    obtain ⟨d, _, rfl⟩ := List.mem_map.mp hr
    constructor
    · intro h0
      have h0x : new_users_on (users_period u s e) d = 0 := h0
      exact conversion_on_zero _ _ _ h0x
    · intro hpos
      have hposx : 0 < new_users_on (users_period u s e) d := hpos
      exact conversion_on_pos _ _ _ hposx
  · intro h0
    rw [summary_conversion_def, h0]
    rfl
  · intro hpos
    rw [summary_conversion_def, if_pos hpos]

/-- Witness for C6 at a concrete input: one registration and one payment on
day 0, so both positive branches fire with conversion 1/1. -/
theorem C6_witness :
    (0 : Nat) <
      ((dailyRows [⟨1, 0, "a"⟩] [⟨1, 2, 10, "USD", 0⟩] 0 0).get
        ⟨0, by decide⟩).new_users ∧
    ((dailyRows [⟨1, 0, "a"⟩] [⟨1, 2, 10, "USD", 0⟩] 0 0).get
        ⟨0, by decide⟩).conversion =
      (((dailyRows [⟨1, 0, "a"⟩] [⟨1, 2, 10, "USD", 0⟩] 0 0).get
          ⟨0, by decide⟩).paying_users : ℚ) /
        (((dailyRows [⟨1, 0, "a"⟩] [⟨1, 2, 10, "USD", 0⟩] 0 0).get
          ⟨0, by decide⟩).new_users : ℚ) ∧
    0 < (summaryOf [⟨1, 0, "a"⟩] [⟨1, 2, 10, "USD", 0⟩] 0 0).total_new_users ∧
    (summaryOf [⟨1, 0, "a"⟩] [⟨1, 2, 10, "USD", 0⟩] 0 0).conversion =
      ((summaryOf [⟨1, 0, "a"⟩] [⟨1, 2, 10, "USD", 0⟩] 0 0).total_paying_users : ℚ) /
        ((summaryOf [⟨1, 0, "a"⟩] [⟨1, 2, 10, "USD", 0⟩] 0 0).total_new_users : ℚ) :=
  ⟨by decide,
   ((C6_conversion_no_div_by_zero [⟨1, 0, "a"⟩] [⟨1, 2, 10, "USD", 0⟩] 0 0).1
     _ (List.get_mem _ _ _)).2 (by decide),
   by decide,
   (C6_conversion_no_div_by_zero [⟨1, 0, "a"⟩] [⟨1, 2, 10, "USD", 0⟩] 0 0).2.2
     (by decide)⟩

/-- Folding `max` from a `max` of two seeds peels off the left seed. -/
theorem foldl_max_max (l : List Int) (a b : Int) :
    l.foldl max (max a b) = max a (l.foldl max b) := by
  induction l generalizing b with
  | nil => rfl
  | cons x xs ih =>
    simp only [List.foldl_cons, max_assoc]
    exact ih (max b x)

/-- The running maximum of a concatenation of two nonempty lists is the max
of the two running maxima. -/
theorem seriesMax_append (x y : Int) (xs ys : List Int) :
    seriesMax (x :: (xs ++ y :: ys)) =
      max (seriesMax (x :: xs)) (seriesMax (y :: ys)) := by
  show (xs ++ y :: ys).foldl max x = max (xs.foldl max x) (ys.foldl max y)
  rw [List.foldl_append]
  exact foldl_max_max ys (xs.foldl max x) y

/-- C7: with no explicit bounds and at least one nonempty input, the
resolved period is the inclusive trailing window of `window_days` days
ending on the midnight-normalized maximum observed timestamp (over all
`registered_at` and `paid_at` values). -/
theorem C7_trailing_window (u : List UserRecord) (p : List PaymentRecord)
    (wd : Int) (hne : u ≠ [] ∨ p ≠ []) :
    compute_date_range u p none none wd =
      .ok ((Timestamp.normalize (seriesMax (u.map (fun x => x.registered_at) ++
              p.map (fun x => x.paid_at)))) - minutesPerDay * (wd - 1),
           Timestamp.normalize (seriesMax (u.map (fun x => x.registered_at) ++
              p.map (fun x => x.paid_at)))) := by
  match u, p with
  | [], [] => simp at hne
  | [], q :: qs =>
    simp [compute_date_range, seriesMax]
  | a :: as, [] =>
    simp [compute_date_range, seriesMax]
  | a :: as, q :: qs =>
    simp only [compute_date_range, List.isEmpty_cons, Bool.false_eq_true,
      if_false, List.map_cons, List.cons_append, List.nil_append,
      List.isEmpty_eq_true, List.append_eq_nil, reduceCtorEq, and_false]
    rw [seriesMax_append]
    simp [seriesMax]

/-- Witness for C7 at a concrete input: a single user registered at minute
100 of day 0 and no payments, with a 7-day window — the resolved period is
days −6 … 0. -/
theorem C7_witness :
    ([⟨1, 100, "a"⟩] : List UserRecord) ≠ [] ∧
    compute_date_range [⟨1, 100, "a"⟩] [] none none 7 =
      .ok (-8640, 0) :=
  ⟨by decide,
   (C7_trailing_window [⟨1, 100, "a"⟩] [] 7 (Or.inl (by decide))).trans
     (by rfl)⟩

end WeeklyKPI
